import Mathlib

/-!
Shallow embedding of the drag-to-height / snap-to-point engine of the
`react-webview-bottomsheet` component (src/BottomSheet.tsx and
src/hooks/useDragHandlers.ts).

Modelling conventions:
* JavaScript numbers are modelled as rationals (`ℚ`).
* A JavaScript value that may be `NaN` or `undefined` is modelled as
  `Option ℚ`, with `none` standing for `NaN`/`undefined`; arithmetic on such
  a value propagates `none`, and every ordering comparison against it is
  `false`, exactly as `NaN` comparisons are false in JavaScript.
* The host-supplied callbacks (`onHeightChange`, `onSnap`, `onDragStart`,
  `onDragEnd`, `onClose`) are modelled as emitted `Event`s: each handler
  returns the updated component state together with the ordered list of
  callback invocations it performs.
* The model describes the browser environment, where the source's
  `isBrowser` guard is `true`.
-/

namespace BottomSheet

/-- Model of a CSS dimension string as consumed by `getPixelValue` and
`getInitialHeightValue`: whether the string ends in a percent sign, whether
it ends in the letters p-x, and the result of JavaScript `parseFloat` on it
(`none` for `NaN`, i.e. a string with no leading number). -/
structure DimStr where
  endsWithPct : Bool
  endsWithPx : Bool
  parsed : Option ℚ
deriving DecidableEq

/-- Model of `getPixelValue` (src/BottomSheet.tsx lines 57-66): converts a
height string to pixels. Percent strings give `parseFloat(value)/100 *
window.innerHeight`; p-x strings give `parseFloat(value)`; every other
string also gives `parseFloat(value)` (which is `NaN`, i.e. `none`, when the
string has no leading number). Used for `minHeight` and `maxHeight`. -/
def getPixelValue (value : DimStr) (viewportHeight : ℚ) : Option ℚ :=
  if value.endsWithPct then value.parsed.map fun p => p / 100 * viewportHeight
  else if value.endsWithPx then value.parsed
  else value.parsed

/-- Model of `getInitialHeightValue` (src/BottomSheet.tsx lines 43-54):
like `getPixelValue` for percent and p-x strings, but an unrecognized format
falls back to `0.3 * window.innerHeight`. Used for `initialHeight`, both at
mount and inside the resize handler. -/
def getInitialHeightValue (initialHeight : DimStr) (viewportHeight : ℚ) : Option ℚ :=
  if initialHeight.endsWithPct then
    initialHeight.parsed.map fun p => p / 100 * viewportHeight
  else if initialHeight.endsWithPx then initialHeight.parsed
  else some (3 / 10 * viewportHeight)

/-- Configuration consumed by the drag handlers: the `isDraggable`,
`enableSnapping`, `closeOnClickOutside` and `closeOnEscape` props, the
pixel values of `minHeight` and `maxHeight`, the `snapPoints` percentage
list, and the current `window.innerHeight`. -/
structure Config where
  isDraggable : Bool
  enableSnapping : Bool
  minHeightPx : ℚ
  maxHeightPx : ℚ
  snapPoints : List ℚ
  viewportHeight : ℚ
  closeOnClickOutside : Bool
  closeOnEscape : Bool
deriving DecidableEq

/-- Mutable component state: `sheetHeight` (an `Option` because the height
becomes `undefined` when snapping on an empty snap list), the `isDragging`
flag, the `dragStartY` and `dragStartHeight` refs, and the internal
`visible` state. -/
structure SheetState where
  sheetHeight : Option ℚ
  isDragging : Bool
  dragStartY : ℚ
  dragStartHeight : Option ℚ
  visible : Bool
deriving DecidableEq

/-- A host callback invocation performed by a handler. -/
inductive Event
  | heightChange (h : Option ℚ)
  | snap (i : ℕ)
  | dragStart
  | dragEnd
  | closeRequest
deriving DecidableEq

/-- Keyboard keys distinguished by the component's key handlers. -/
inductive Key
  | enter
  | space
  | escape
  | other
deriving DecidableEq

/-- The pixel values of the configured snap points:
`snapPoints.map(point => point / 100 * window.innerHeight)`
(src/BottomSheet.tsx line 97). -/
def snapPixels (cfg : Config) : List ℚ :=
  cfg.snapPoints.map fun point => point / 100 * cfg.viewportHeight

/-- The `forEach` loop of `findNearestSnapPoint` (src/BottomSheet.tsx lines
101-110): starting from candidate `best`, replace it by any later point at
strictly smaller absolute distance from `h`. The tracked `minDistance` is
always `|h - best|`, so only the candidate needs to be threaded. -/
def nearestAux (h best : ℚ) (l : List ℚ) : ℚ :=
  l.foldl (fun b point => if |h - point| < |h - b| then point else b) best

/-- Model of `findNearestSnapPoint` (src/BottomSheet.tsx lines 93-121).
With snapping disabled it returns the height unchanged and fires nothing.
Otherwise it maps the snap points to pixels, seeds the search with
`snapPointsPixels[0]` (which is `undefined`, hence a `none` result, for an
empty list, with `indexOf` returning `-1` so that `onSnap` is not fired),
scans all points keeping the strictly closer one, fires `onSnap` with the
`indexOf` of the winning pixel value, and returns that value. When the
incoming height is `NaN` (`none`) every distance comparison is false, so the
seed `snapPointsPixels[0]` survives the scan. -/
def findNearestSnapPoint (cfg : Config) (height : Option ℚ) : Option ℚ × List Event :=
  if cfg.enableSnapping = false then (height, [])
  else
    match snapPixels cfg, height with
    | [], _ => (none, [])
    | p0 :: rest, none =>
        (some p0, [Event.snap ((p0 :: rest).indexOf p0)])
    | p0 :: rest, some h =>
        let nearestPoint := nearestAux h p0 (p0 :: rest)
        (some nearestPoint, [Event.snap ((p0 :: rest).indexOf nearestPoint)])

/-- The clamp of src/hooks/useDragHandlers.ts lines 65 and 151:
`Math.max(minHeightPx, Math.min(maxHeightPx, newHeight))`. -/
def clampHeight (minHeightPx maxHeightPx raw : ℚ) : ℚ :=
  max minHeightPx (min maxHeightPx raw)

/-- Model of `handleTouchStart` (src/hooks/useDragHandlers.ts lines 30-48):
records the start coordinate and start height, activates the drag session,
and fires `onDragStart`. -/
def handleTouchStart (cfg : Config) (s : SheetState) (clientY : ℚ) : SheetState × List Event :=
  if cfg.isDraggable = false then (s, [])
  else
    ({ s with dragStartY := clientY, dragStartHeight := s.sheetHeight, isDragging := true },
     [Event.dragStart])

/-- Model of `handleTouchMove` (src/hooks/useDragHandlers.ts lines 51-81):
a no-op unless draggable and dragging; otherwise computes
`deltaY = dragStartY - clientY`, clamps `dragStartHeight + deltaY` between
the pixel bounds, stores it, and fires `onHeightChange` with it. A `NaN`
start height propagates to a `NaN` result (`Option.map`). -/
def handleTouchMove (cfg : Config) (s : SheetState) (clientY : ℚ) : SheetState × List Event :=
  if cfg.isDraggable = false ∨ s.isDragging = false then (s, [])
  else
    let deltaY := s.dragStartY - clientY
    let newHeight := s.dragStartHeight.map fun h0 =>
      clampHeight cfg.minHeightPx cfg.maxHeightPx (h0 + deltaY)
    ({ s with sheetHeight := newHeight }, [Event.heightChange newHeight])

/-- Model of `handleTouchEnd` (src/hooks/useDragHandlers.ts lines 84-107):
a no-op unless draggable; otherwise deactivates the session, and if snapping
is enabled resolves the current height through `findNearestSnapPoint`
(which itself fires `onSnap`), adopts the result, and fires `onHeightChange`
with it; finally fires `onDragEnd`. -/
def handleTouchEnd (cfg : Config) (s : SheetState) : SheetState × List Event :=
  if cfg.isDraggable = false then (s, [])
  else
    if cfg.enableSnapping = true then
      let snapped := findNearestSnapPoint cfg s.sheetHeight
      ({ s with isDragging := false, sheetHeight := snapped.1 },
       snapped.2 ++ [Event.heightChange snapped.1, Event.dragEnd])
    else ({ s with isDragging := false }, [Event.dragEnd])

/-- Model of `handleMouseDown` (src/hooks/useDragHandlers.ts lines 110-135):
identical height logic to `handleTouchStart`; the global listener attachment
it also performs is outside the state model. -/
def handleMouseDown (cfg : Config) (s : SheetState) (clientY : ℚ) : SheetState × List Event :=
  if cfg.isDraggable = false then (s, [])
  else
    ({ s with dragStartY := clientY, dragStartHeight := s.sheetHeight, isDragging := true },
     [Event.dragStart])

/-- Model of `handleMouseMove` (src/hooks/useDragHandlers.ts lines 138-167):
textually the same height computation as `handleTouchMove`. -/
def handleMouseMove (cfg : Config) (s : SheetState) (clientY : ℚ) : SheetState × List Event :=
  if cfg.isDraggable = false ∨ s.isDragging = false then (s, [])
  else
    let deltaY := s.dragStartY - clientY
    let newHeight := s.dragStartHeight.map fun h0 =>
      clampHeight cfg.minHeightPx cfg.maxHeightPx (h0 + deltaY)
    ({ s with sheetHeight := newHeight }, [Event.heightChange newHeight])

/-- Model of `handleMouseUp` (src/hooks/useDragHandlers.ts lines 170-200):
textually the same height logic as `handleTouchEnd`; the global listener
removal it also performs is outside the state model. -/
def handleMouseUp (cfg : Config) (s : SheetState) : SheetState × List Event :=
  if cfg.isDraggable = false then (s, [])
  else
    if cfg.enableSnapping = true then
      let snapped := findNearestSnapPoint cfg s.sheetHeight
      ({ s with isDragging := false, sheetHeight := snapped.1 },
       snapped.2 ++ [Event.heightChange snapped.1, Event.dragEnd])
    else ({ s with isDragging := false }, [Event.dragEnd])

/-- Model of `handleBackdropClick` (src/BottomSheet.tsx lines 149-153):
when `closeOnClickOutside` is set, fires `onClose`; the internal state is
untouched. -/
def handleBackdropClick (cfg : Config) (s : SheetState) : SheetState × List Event :=
  if cfg.closeOnClickOutside = true then (s, [Event.closeRequest]) else (s, [])

/-- Model of `handleEscapeKey` (src/BottomSheet.tsx lines 159-163): when
`closeOnEscape` is set, the sheet is visible, and the key is Escape, fires
`onClose`; the internal state is untouched. -/
def handleEscapeKey (cfg : Config) (s : SheetState) (key : Key) : SheetState × List Event :=
  if cfg.closeOnEscape = true ∧ s.visible = true ∧ key = Key.escape then
    (s, [Event.closeRequest])
  else (s, [])

/-- Model of the `useEffect` at src/BottomSheet.tsx lines 177-179: the
internal `visible` state mirrors the external `isVisible` prop. -/
def syncVisible (s : SheetState) (isVisible : Bool) : SheetState :=
  { s with visible := isVisible }

/-- Model of the drag handle's `onKeyDown` (src/BottomSheet.tsx lines
280-291): on Enter or Space, if `sheetHeight < maxHeightPx` set the height
to `maxHeightPx`, else to `minHeightPx`, firing `onHeightChange` with the
new value. A `NaN` height compares false, taking the else branch. -/
def handleKeyDown (cfg : Config) (s : SheetState) (key : Key) : SheetState × List Event :=
  if key = Key.enter ∨ key = Key.space then
    match s.sheetHeight with
    | some h =>
        if h < cfg.maxHeightPx then
          ({ s with sheetHeight := some cfg.maxHeightPx },
           [Event.heightChange (some cfg.maxHeightPx)])
        else
          ({ s with sheetHeight := some cfg.minHeightPx },
           [Event.heightChange (some cfg.minHeightPx)])
    | none =>
        ({ s with sheetHeight := some cfg.minHeightPx },
         [Event.heightChange (some cfg.minHeightPx)])
  else (s, [])

/-- Model of `handleResize` (src/BottomSheet.tsx lines 185-187): a viewport
resize re-evaluates `getInitialHeightValue` at the new viewport height and
stores it as the sheet height. -/
def handleResize (initialHeight : DimStr) (newViewportHeight : ℚ) (s : SheetState) :
    SheetState :=
  { s with sheetHeight := getInitialHeightValue initialHeight newViewportHeight }

/-- Snap example configuration: snapPoints [20, 50, 90] over a 1000px
viewport. -/
def cfgSnapA : Config :=
  { isDraggable := true, enableSnapping := true, minHeightPx := 100, maxHeightPx := 900
    snapPoints := [20, 50, 90], viewportHeight := 1000
    closeOnClickOutside := true, closeOnEscape := true }

/-- Tie-break example configuration: snapPoints [30, 70] over a 1000px
viewport, so that height 500 is equidistant from both candidates. -/
def cfgSnapB : Config :=
  { isDraggable := true, enableSnapping := true, minHeightPx := 100, maxHeightPx := 900
    snapPoints := [30, 70], viewportHeight := 1000
    closeOnClickOutside := true, closeOnEscape := true }

/-- End-to-end scenario configuration: the default snapPoints [30, 60, 90]
over a 1000px viewport, bounds 100px to 900px, everything enabled. -/
def cfgRun : Config :=
  { isDraggable := true, enableSnapping := true, minHeightPx := 100, maxHeightPx := 900
    snapPoints := [30, 60, 90], viewportHeight := 1000
    closeOnClickOutside := true, closeOnEscape := true }

/-- A configuration with snapping disabled. -/
def cfgNoSnap : Config :=
  { isDraggable := true, enableSnapping := false, minHeightPx := 100, maxHeightPx := 900
    snapPoints := [30, 60, 90], viewportHeight := 1000
    closeOnClickOutside := true, closeOnEscape := true }

/-- A configuration with snapping enabled but an empty snap-point list. -/
def cfgEmptySnap : Config :=
  { isDraggable := true, enableSnapping := true, minHeightPx := 100, maxHeightPx := 900
    snapPoints := [], viewportHeight := 1000
    closeOnClickOutside := true, closeOnEscape := true }

/-- Scenario start state: resting at height 300, not dragging. -/
def stRun : SheetState :=
  { sheetHeight := some 300, isDragging := false, dragStartY := 0
    dragStartHeight := none, visible := true }

/-- State after a drag began at coordinate 500 with height 300. -/
def stMidDrag : SheetState :=
  { sheetHeight := some 300, isDragging := true, dragStartY := 500
    dragStartHeight := some 300, visible := true }

/-- A mid-drag state used for the empty-snap-set scenario. -/
def stDragging : SheetState :=
  { sheetHeight := some 300, isDragging := true, dragStartY := 500
    dragStartHeight := some 300, visible := true }

/-- A state whose internal `visible` flag is `false`. -/
def stHidden : SheetState :=
  { sheetHeight := some 300, isDragging := false, dragStartY := 0
    dragStartHeight := none, visible := false }

/-- A state holding a height of 550 that the user dragged to. -/
def stDragged : SheetState :=
  { sheetHeight := some 550, isDragging := false, dragStartY := 500
    dragStartHeight := some 300, visible := true }

/-- The string "50%": ends in a percent sign, parseFloat gives 50. -/
def dimPct50 : DimStr := ⟨true, false, some 50⟩

/-- The string "120px": ends in p-x, parseFloat gives 120. -/
def dimPx120 : DimStr := ⟨false, true, some 120⟩

/-- The string "garbage": no recognized suffix, parseFloat gives NaN. -/
def dimGarbage : DimStr := ⟨false, false, none⟩

/-- The string "30%": ends in a percent sign, parseFloat gives 30. -/
def dimPct30 : DimStr := ⟨true, false, some 30⟩

/-- The scan over an empty list keeps the seed candidate. -/
lemma nearestAux_nil (h best : ℚ) : nearestAux h best [] = best := rfl

/-- One step of the scan: the seed is replaced when the head is strictly
closer. -/
lemma nearestAux_cons (h best p : ℚ) (l : List ℚ) :
    nearestAux h best (p :: l) =
      nearestAux h (if |h - p| < |h - best| then p else best) l := rfl

/-- The scan never ends farther from `h` than its seed. -/
lemma nearestAux_le_init (h : ℚ) (l : List ℚ) : ∀ best : ℚ,
    |h - nearestAux h best l| ≤ |h - best| := by
  induction l with
  | nil => intro best; simp [nearestAux_nil]
  | cons p t ih =>
    intro best
    rw [nearestAux_cons]
    by_cases hc : |h - p| < |h - best|
    · rw [if_pos hc]; exact le_trans (ih p) (le_of_lt hc)
    · rw [if_neg hc]; exact ih best

/-- The scan result is at least as close to `h` as every scanned point. -/
lemma nearestAux_le_mem (h : ℚ) (l : List ℚ) : ∀ best : ℚ, ∀ p ∈ l,
    |h - nearestAux h best l| ≤ |h - p| := by
  induction l with
  | nil => intro best p hp; simp at hp
  | cons q t ih =>
    intro best p hp
    rw [nearestAux_cons]
    rcases List.mem_cons.mp hp with hpq | hpt
    · subst hpq
      by_cases hc : |h - p| < |h - best|
      · rw [if_pos hc]; exact nearestAux_le_init h t p
      · rw [if_neg hc]
        exact le_trans (nearestAux_le_init h t best) (not_lt.mp hc)
    · by_cases hc : |h - q| < |h - best|
      · rw [if_pos hc]; exact ih q p hpt
      · rw [if_neg hc]; exact ih best p hpt

/-- The scan result is the seed or one of the scanned points. -/
lemma nearestAux_mem (h : ℚ) (l : List ℚ) : ∀ best : ℚ,
    nearestAux h best l = best ∨ nearestAux h best l ∈ l := by
  induction l with
  | nil => intro best; left; rfl
  | cons q t ih =>
    intro best
    rw [nearestAux_cons]
    by_cases hc : |h - q| < |h - best|
    · rw [if_pos hc]
      rcases ih q with he | hm
      · right; rw [he]; exact List.mem_cons_self q t
      · right; exact List.mem_cons_of_mem q hm
    · rw [if_neg hc]
      rcases ih best with he | hm
      · left; exact he
      · right; exact List.mem_cons_of_mem q hm

/-- A seed no farther from `h` than every scanned point survives the scan
(the strict comparison keeps the incumbent on ties). -/
lemma nearestAux_of_min (h : ℚ) (l : List ℚ) : ∀ best : ℚ,
    (∀ p ∈ l, |h - best| ≤ |h - p|) → nearestAux h best l = best := by
  induction l with
  | nil => intro best _; rfl
  | cons q t ih =>
    intro best hall
    rw [nearestAux_cons, if_neg (not_lt.mpr (hall q (List.mem_cons_self q t)))]
    exact ih best fun p hp => hall p (List.mem_cons_of_mem q hp)

/-- If position `j` holds a globally minimal-distance point, every earlier
position is strictly farther, and `j` strictly beats the seed, then the scan
lands exactly on the point at `j`. -/
lemma nearestAux_firstmin (h : ℚ) (l : List ℚ) : ∀ (best : ℚ) (j : ℕ),
    j < l.length →
    (∀ p ∈ l, |h - l.getD j 0| ≤ |h - p|) →
    |h - l.getD j 0| < |h - best| →
    (∀ k, k < j → |h - l.getD j 0| < |h - l.getD k 0|) →
    nearestAux h best l = l.getD j 0 := by
  induction l with
  | nil => intro best j hj; simp at hj
  | cons q t ih =>
    intro best j hj hmin hbest hbefore
    match j with
    | 0 =>
      simp only [List.getD_cons_zero] at hmin hbest ⊢
      rw [nearestAux_cons, if_pos hbest]
      exact nearestAux_of_min h t q fun p hp => hmin p (List.mem_cons_of_mem q hp)
    | Nat.succ k =>
      simp only [List.getD_cons_succ] at hmin hbest hbefore ⊢
      have h0 : |h - t.getD k 0| < |h - q| := by
        have := hbefore 0 (Nat.succ_pos k)
        simpa using this
      rw [nearestAux_cons]
      have hstep : |h - t.getD k 0| < |h - if |h - q| < |h - best| then q else best| := by
        by_cases hc : |h - q| < |h - best|
        · rw [if_pos hc]; exact h0
        · rw [if_neg hc]; exact hbest
      exact ih _ k (Nat.lt_of_succ_lt_succ hj)
        (fun p hp => hmin p (List.mem_cons_of_mem q hp)) hstep
        (fun k' hk' => by
          have := hbefore (k' + 1) (Nat.succ_lt_succ hk')
          simpa using this)

/-- `indexOf` never reports a position after a known occurrence. -/
lemma indexOf_le_of_getD (l : List ℚ) (a : ℚ) : ∀ j : ℕ, j < l.length →
    l.getD j 0 = a → l.indexOf a ≤ j := by
  induction l with
  | nil => intro j hj; simp at hj
  | cons q t ih =>
    intro j hj ha
    match j with
    | 0 =>
      simp only [List.getD_cons_zero] at ha
      rw [List.indexOf_cons_eq t ha]
    | Nat.succ k =>
      by_cases hq : q = a
      · rw [List.indexOf_cons_eq t hq]; exact Nat.zero_le _
      · rw [List.indexOf_cons_ne t hq]
        simp only [List.getD_cons_succ] at ha
        exact Nat.succ_le_succ (ih k (Nat.lt_of_succ_lt_succ hj) ha)

/-- Unfolding of `findNearestSnapPoint` on a numeric height and a non-empty
snap set: the result is the scan winner and a single `onSnap` with its
`indexOf`. -/
lemma findNearestSnapPoint_cons (cfg : Config) (h p0 : ℚ) (rest : List ℚ)
    (hs : cfg.enableSnapping = true) (hp : snapPixels cfg = p0 :: rest) :
    findNearestSnapPoint cfg (some h) =
      (some (nearestAux h p0 (p0 :: rest)),
       [Event.snap ((p0 :: rest).indexOf (nearestAux h p0 (p0 :: rest)))]) := by
  unfold findNearestSnapPoint
  rw [hs, hp]
  simp

/-- Unfolding of `findNearestSnapPoint` on an empty snap set: the height
becomes `undefined` and no `onSnap` fires. -/
lemma findNearestSnapPoint_nil (cfg : Config) (height : Option ℚ)
    (hs : cfg.enableSnapping = true) (hp : snapPixels cfg = []) :
    findNearestSnapPoint cfg height = (none, []) := by
  unfold findNearestSnapPoint
  rw [hs, hp]
  cases height <;> simp

/-- On a non-empty snap set and numeric height, the resolver returns a value
and an index that are exactly the earliest candidate of minimum absolute
distance: the index is in range, points at the returned value, no candidate
is strictly closer, and every earlier-listed candidate is strictly
farther. -/
lemma snap_resolution_main (cfg : Config) (h p0 : ℚ) (rest : List ℚ)
    (hs : cfg.enableSnapping = true) (hp : snapPixels cfg = p0 :: rest) :
    ∃ r i, findNearestSnapPoint cfg (some h) = (some r, [Event.snap i]) ∧
      i < (snapPixels cfg).length ∧ (snapPixels cfg).getD i 0 = r ∧
      (∀ j, j < (snapPixels cfg).length → |h - r| ≤ |h - (snapPixels cfg).getD j 0|) ∧
      (∀ j, j < i → |h - r| < |h - (snapPixels cfg).getD j 0|) := by
  rw [hp]
  set pixels := p0 :: rest with hpix
  set r := nearestAux h p0 pixels with hr
  have hp0 : pixels.getD 0 0 = p0 := rfl
  have hrmem : r ∈ pixels := by
    rcases nearestAux_mem h pixels p0 with he | hm
    · rw [hr, he]; exact List.mem_cons_self p0 rest
    · exact hm
  have hmin : ∀ p ∈ pixels, |h - r| ≤ |h - p| := nearestAux_le_mem h pixels p0
  have hilt : pixels.indexOf r < pixels.length := List.indexOf_lt_length.mpr hrmem
  refine ⟨r, pixels.indexOf r, findNearestSnapPoint_cons cfg h p0 rest hs hp, hilt, ?_, ?_, ?_⟩
  · rw [List.getD_eq_getElem _ _ hilt]
    exact List.getElem_indexOf hilt
  · intro j hj
    exact hmin _ (by rw [List.getD_eq_getElem _ _ hj]; exact List.getElem_mem hj)
  · intro j hj
    by_contra hcon
    push_neg at hcon
    have hjlen : j < pixels.length := lt_trans hj hilt
    have hex : ∃ k, k < pixels.length ∧ |h - pixels.getD k 0| ≤ |h - r| :=
      ⟨j, hjlen, hcon⟩
    classical
    have hj0spec := Nat.find_spec hex
    have hj0min : ∀ k, k < Nat.find hex →
        ¬(k < pixels.length ∧ |h - pixels.getD k 0| ≤ |h - r|) :=
      fun k hk => Nat.find_min hex hk
    have hj0le : Nat.find hex ≤ j := Nat.find_min' hex ⟨hjlen, hcon⟩
    obtain ⟨hj0len, hj0dist⟩ := hj0spec
    have hd : |h - pixels.getD (Nat.find hex) 0| = |h - r| := by
      refine le_antisymm hj0dist (hmin _ ?_)
      rw [List.getD_eq_getElem _ _ hj0len]; exact List.getElem_mem hj0len
    have hreq : r = pixels.getD (Nat.find hex) 0 := by
      cases hcase : Nat.find hex with
      | zero =>
        rw [hp0]
        rw [hcase, hp0] at hd
        rw [hr]
        exact nearestAux_of_min h pixels p0 fun p hpm => by rw [hd]; exact hmin p hpm
      | succ m =>
        rw [hcase] at hd hj0len hj0min
        rw [hr]
        apply nearestAux_firstmin h pixels p0 (m + 1) hj0len
        · intro p hpm; rw [hd]; exact hmin p hpm
        · rw [hd]
          have h0len : 0 < pixels.length := lt_trans (Nat.succ_pos m) hj0len
          have hz := hj0min 0 (Nat.succ_pos m)
          push_neg at hz
          have h2 := hz h0len
          rw [hp0] at h2
          exact h2
        · intro k hk
          have h3 := hj0min k hk
          push_neg at h3
          rw [hd]
          exact h3 (lt_trans hk hj0len)
    have hle : pixels.indexOf r ≤ Nat.find hex :=
      indexOf_le_of_getD pixels r _ hj0len hreq.symm
    omega

/-- The resolver fires either nothing or exactly one `onSnap`. -/
lemma findNearestSnapPoint_events (cfg : Config) (hgt : Option ℚ) :
    (findNearestSnapPoint cfg hgt).2 = [] ∨
      ∃ i, (findNearestSnapPoint cfg hgt).2 = [Event.snap i] := by
  unfold findNearestSnapPoint
  by_cases hs : cfg.enableSnapping = false
  · simp [hs]
  · rw [if_neg hs]
    rcases snapPixels cfg with _ | ⟨p0, rest⟩ <;> cases hgt <;> simp

/-- When draggable, `handleTouchEnd` fires `onDragEnd` exactly once. -/
lemma handleTouchEnd_dragEnd_count (cfg : Config) (s : SheetState)
    (h1 : cfg.isDraggable = true) :
    (handleTouchEnd cfg s).2.count Event.dragEnd = 1 := by
  simp only [handleTouchEnd, h1]
  by_cases h2 : cfg.enableSnapping = true
  · simp only [h2, if_true, reduceIte, List.count_append]
    rcases findNearestSnapPoint_events cfg s.sheetHeight with he | ⟨i, he⟩ <;>
      simp [he, List.count_cons]
  · simp [h2, List.count_cons]

/-- C1: a move event is a no-op (state unchanged, no callback) unless
dragging is enabled and a session is active; otherwise it sets the height to
`clamp(startHeight + (startY - c), minPx, maxPx)` and fires `onHeightChange`
with that clamped value, for both the touch and the mouse handler; and after
`end()` has deactivated the session, a subsequent move produces no height
change and no callback. -/
theorem C1_move_spec :
    (∀ (cfg : Config) (s : SheetState) (c : ℚ),
      cfg.isDraggable = false ∨ s.isDragging = false →
      handleTouchMove cfg s c = (s, []) ∧ handleMouseMove cfg s c = (s, [])) ∧
    (∀ (cfg : Config) (s : SheetState) (c h0 : ℚ),
      cfg.isDraggable = true → s.isDragging = true → s.dragStartHeight = some h0 →
      handleTouchMove cfg s c =
        ({ s with
             sheetHeight :=
               some (clampHeight cfg.minHeightPx cfg.maxHeightPx (h0 + (s.dragStartY - c))) },
         [Event.heightChange
            (some (clampHeight cfg.minHeightPx cfg.maxHeightPx (h0 + (s.dragStartY - c))))]) ∧
      handleMouseMove cfg s c = handleTouchMove cfg s c) ∧
    (∀ (cfg : Config) (s : SheetState) (c : ℚ),
      cfg.isDraggable = true →
      (handleTouchEnd cfg s).1.isDragging = false ∧
      handleTouchMove cfg (handleTouchEnd cfg s).1 c = ((handleTouchEnd cfg s).1, []) ∧
      (handleMouseUp cfg s).1.isDragging = false ∧
      handleMouseMove cfg (handleMouseUp cfg s).1 c = ((handleMouseUp cfg s).1, [])) := by
  refine ⟨?_, ?_, ?_⟩
  · intro cfg s c hno
    constructor
    · unfold handleTouchMove; rw [if_pos hno]
    · unfold handleMouseMove; rw [if_pos hno]
  · intro cfg s c h0 h1 h2 h3
    constructor
    · simp [handleTouchMove, h1, h2, h3]
    · rfl
  · intro cfg s c h1
    have hend : (handleTouchEnd cfg s).1.isDragging = false := by
      simp only [handleTouchEnd, h1]
      by_cases h2 : cfg.enableSnapping = true <;> simp [h2]
    have hendM : (handleMouseUp cfg s).1.isDragging = false := hend
    refine ⟨hend, ?_, hendM, ?_⟩
    · unfold handleTouchMove
      rw [if_pos (Or.inr hend)]
    · unfold handleMouseMove
      rw [if_pos (Or.inr hendM)]

/-- Witness for C1: a concrete active-session move at coordinate 250 from
start 500 and start height 300 yields the stated clamped height and
callback. -/
theorem C1_move_witness :
    handleTouchMove cfgRun stMidDrag 250 =
      ({ stMidDrag with
           sheetHeight :=
             some (clampHeight cfgRun.minHeightPx cfgRun.maxHeightPx
               (300 + (stMidDrag.dragStartY - 250))) },
       [Event.heightChange
          (some (clampHeight cfgRun.minHeightPx cfgRun.maxHeightPx
            (300 + (stMidDrag.dragStartY - 250))))]) :=
  (C1_move_spec.2.1 cfgRun stMidDrag 250 300 rfl rfl rfl).1

/-- C2: on a non-empty snap list, resolution converts each percentage p to
p/100 * viewport, returns the candidate of minimum absolute distance to the
height (earliest-listed candidate on exact ties) together with its index in
the original list; in particular [20,50,90] over 1000 at height 520 gives
500 at index 1, and [30,70] over 1000 at height 500 gives 300 at index 0. -/
theorem C2_snap_resolution :
    (∀ (cfg : Config) (h p0 : ℚ) (rest : List ℚ),
      cfg.enableSnapping = true → snapPixels cfg = p0 :: rest →
      ∃ r i, findNearestSnapPoint cfg (some h) = (some r, [Event.snap i]) ∧
        i < (snapPixels cfg).length ∧ (snapPixels cfg).getD i 0 = r ∧
        (∀ j, j < (snapPixels cfg).length →
          |h - r| ≤ |h - (snapPixels cfg).getD j 0|) ∧
        (∀ j, j < i → |h - r| < |h - (snapPixels cfg).getD j 0|)) ∧
    findNearestSnapPoint cfgSnapA (some 520) = (some 500, [Event.snap 1]) ∧
    findNearestSnapPoint cfgSnapB (some 500) = (some 300, [Event.snap 0]) := by
  refine ⟨snap_resolution_main, ?_, ?_⟩
  · have hp : snapPixels cfgSnapA = 200 :: [500, 900] := by norm_num [snapPixels, cfgSnapA]
    rw [findNearestSnapPoint_cons cfgSnapA 520 200 [500, 900] rfl hp]
    norm_num [nearestAux, List.foldl, List.indexOf, List.findIdx, List.findIdx.go,
      cond_eq_if, beq_iff_eq]
  · have hp : snapPixels cfgSnapB = 300 :: [700] := by norm_num [snapPixels, cfgSnapB]
    rw [findNearestSnapPoint_cons cfgSnapB 500 300 [700] rfl hp]
    norm_num [nearestAux, List.foldl, List.indexOf, List.findIdx, List.findIdx.go,
      cond_eq_if, beq_iff_eq]

/-- Witness for C2: the general resolution property instantiated on
snapPoints [20,50,90], viewport 1000, height 520. -/
theorem C2_snap_resolution_witness :
    ∃ r i, findNearestSnapPoint cfgSnapA (some 520) = (some r, [Event.snap i]) ∧
      i < (snapPixels cfgSnapA).length ∧ (snapPixels cfgSnapA).getD i 0 = r ∧
      (∀ j, j < (snapPixels cfgSnapA).length →
        |(520:ℚ) - r| ≤ |520 - (snapPixels cfgSnapA).getD j 0|) ∧
      (∀ j, j < i → |(520:ℚ) - r| < |520 - (snapPixels cfgSnapA).getD j 0|) :=
  C2_snap_resolution.1 cfgSnapA 520 200 [500, 900] rfl
    (by norm_num [snapPixels, cfgSnapA])

/-- C3: with dragging enabled, `end()` deactivates the session and fires
`onDragEnd` exactly once whether or not snapping changed the height; with
snapping enabled and a numeric height over a non-empty snap list it resolves
the height, adopts the snapped value, and fires `onSnap` with the resolved
index and `onHeightChange` with the snapped value exactly once each, the
mouse handler behaving identically; and the concrete gesture begin at 300,
drag up by 250 to 550, end over snapPoints [30,60,90] and viewport 1000,
finishes at height 600 with `onSnap 1` and `onHeightChange 600`. -/
theorem C3_end_snaps_and_notifies :
    (∀ (cfg : Config) (s : SheetState), cfg.isDraggable = true →
      (handleTouchEnd cfg s).1.isDragging = false ∧
      (handleTouchEnd cfg s).2.count Event.dragEnd = 1 ∧
      (handleMouseUp cfg s).2.count Event.dragEnd = 1 ∧
      (cfg.enableSnapping = false →
        handleTouchEnd cfg s = ({ s with isDragging := false }, [Event.dragEnd]))) ∧
    (∀ (cfg : Config) (s : SheetState) (h p0 : ℚ) (rest : List ℚ),
      cfg.isDraggable = true → cfg.enableSnapping = true →
      s.sheetHeight = some h → snapPixels cfg = p0 :: rest →
      ∃ v i, findNearestSnapPoint cfg (some h) = (some v, [Event.snap i]) ∧
        handleTouchEnd cfg s =
          ({ s with isDragging := false, sheetHeight := some v },
           [Event.snap i, Event.heightChange (some v), Event.dragEnd]) ∧
        handleMouseUp cfg s = handleTouchEnd cfg s) ∧
    (handleTouchMove cfgRun (handleTouchStart cfgRun stRun 500).1 250).1.sheetHeight =
      some 550 ∧
    handleTouchEnd cfgRun (handleTouchMove cfgRun (handleTouchStart cfgRun stRun 500).1 250).1 =
      ({ sheetHeight := some 600, isDragging := false, dragStartY := 500
         dragStartHeight := some 300, visible := true },
       [Event.snap 1, Event.heightChange (some 600), Event.dragEnd]) := by
  refine ⟨?_, ?_, ?_, ?_⟩
  · intro cfg s h1
    have hend : (handleTouchEnd cfg s).1.isDragging = false := by
      simp only [handleTouchEnd, h1]
      by_cases h2 : cfg.enableSnapping = true <;> simp [h2]
    have hcnt := handleTouchEnd_dragEnd_count cfg s h1
    have hcntM : (handleMouseUp cfg s).2.count Event.dragEnd = 1 := hcnt
    refine ⟨hend, hcnt, hcntM, fun h2 => ?_⟩
    simp [handleTouchEnd, h1, h2]
  · intro cfg s h p0 rest h1 h2 hsh hp
    refine ⟨nearestAux h p0 (p0 :: rest), (p0 :: rest).indexOf (nearestAux h p0 (p0 :: rest)),
      findNearestSnapPoint_cons cfg h p0 rest h2 hp, ?_, rfl⟩
    simp only [handleTouchEnd, h1, h2]
    rw [hsh]
    rw [findNearestSnapPoint_cons cfg h p0 rest h2 hp]
    simp
  · have hstart : (handleTouchStart cfgRun stRun 500).1 = stMidDrag := by
      simp [handleTouchStart, cfgRun, stRun, stMidDrag]
    rw [hstart]
    norm_num [handleTouchMove, stMidDrag, cfgRun, clampHeight, min_def, max_def]
  · have hstart : (handleTouchStart cfgRun stRun 500).1 = stMidDrag := by
      simp [handleTouchStart, cfgRun, stRun, stMidDrag]
    rw [hstart]
    have hmove : (handleTouchMove cfgRun stMidDrag 250) =
        ({ sheetHeight := some 550, isDragging := true, dragStartY := 500
           dragStartHeight := some 300, visible := true }, [Event.heightChange (some 550)]) := by
      norm_num [handleTouchMove, stMidDrag, cfgRun, clampHeight, min_def, max_def]
    rw [hmove]
    have hp : snapPixels cfgRun = 300 :: [600, 900] := by norm_num [snapPixels, cfgRun]
    have hf : findNearestSnapPoint cfgRun (some 550) = (some 600, [Event.snap 1]) := by
      rw [findNearestSnapPoint_cons cfgRun 550 300 [600, 900] rfl hp]
      norm_num [nearestAux, List.foldl, List.indexOf, List.findIdx, List.findIdx.go,
        cond_eq_if, beq_iff_eq]
    simp only [handleTouchEnd, show cfgRun.isDraggable = true from rfl,
      show cfgRun.enableSnapping = true from rfl]
    norm_num [hf]

/-- Witness for C3: ending the concrete mid-drag state deactivates the
session and fires `onDragEnd` exactly once on both handlers. -/
theorem C3_end_witness :
    (handleTouchEnd cfgRun stMidDrag).1.isDragging = false ∧
    (handleTouchEnd cfgRun stMidDrag).2.count Event.dragEnd = 1 ∧
    (handleMouseUp cfgRun stMidDrag).2.count Event.dragEnd = 1 := by
  have h := C3_end_snaps_and_notifies.1 cfgRun stMidDrag rfl
  exact ⟨h.1, h.2.1, h.2.2.1⟩

/-- C4: the clamp equals `max(minPx, min(maxPx, h))` for all rational
inputs; it lands in `[minPx, maxPx]` whenever `minPx ≤ maxPx`, and collapses
to `minPx` whenever the bounds are inverted. Being a Lean function of its
three arguments, it is pure and total by construction. -/
theorem C4_clamp_spec : ∀ raw minPx maxPx : ℚ,
    clampHeight minPx maxPx raw = max minPx (min maxPx raw) ∧
    (minPx ≤ maxPx →
      minPx ≤ clampHeight minPx maxPx raw ∧ clampHeight minPx maxPx raw ≤ maxPx) ∧
    (maxPx < minPx → clampHeight minPx maxPx raw = minPx) := by
  intro raw minPx maxPx
  refine ⟨rfl, fun hle => ⟨le_max_left _ _, ?_⟩, fun hgt => ?_⟩
  · exact max_le hle (min_le_left _ _)
  · exact max_eq_left (le_of_lt (lt_of_le_of_lt (min_le_left _ _) hgt))

/-- Witness for C4: concrete instances of the clamp bounds and the
inverted-bounds collapse. -/
theorem C4_clamp_witness :
    clampHeight 0 10 5 = max 0 (min 10 5) ∧
    (0:ℚ) ≤ clampHeight 0 10 5 ∧ clampHeight 0 10 5 ≤ 10 ∧
    clampHeight 10 0 7 = 10 :=
  ⟨(C4_clamp_spec 5 0 10).1,
   ((C4_clamp_spec 5 0 10).2.1 (by norm_num)).1,
   ((C4_clamp_spec 5 0 10).2.1 (by norm_num)).2,
   (C4_clamp_spec 7 10 0).2.2 (by norm_num)⟩

/-- Counterexample for C5: for the min/max conversion (`getPixelValue`) an
unparsable string such as "garbage" does not produce the claimed 30%
default (300 over a 1000px viewport); it produces `parseFloat("garbage")`,
i.e. `NaN` (`none`). -/
theorem C5_fallback_counterexample :
    getPixelValue dimGarbage 1000 = none ∧ getPixelValue dimGarbage 1000 ≠ some 300 := by
  constructor <;> simp [getPixelValue, dimGarbage]

/-- C5 (amended): percent strings convert to `(percent/100) * viewport` and
p-x strings to their literal value under both conversions, but only the
initial-height conversion (`getInitialHeightValue`) falls back to 30% of the
viewport on an unrecognized format; the min/max conversion
(`getPixelValue`) instead returns `parseFloat(value)`, which is `NaN`
(`none`) for a fully unparsable string. -/
theorem C5_pixel_conversion :
    (∀ (d : DimStr) (v p : ℚ), d.endsWithPct = true → d.parsed = some p →
      getPixelValue d v = some (p / 100 * v) ∧
      getInitialHeightValue d v = some (p / 100 * v)) ∧
    (∀ (d : DimStr) (v p : ℚ), d.endsWithPct = false → d.endsWithPx = true →
      d.parsed = some p →
      getPixelValue d v = some p ∧ getInitialHeightValue d v = some p) ∧
    (∀ (d : DimStr) (v : ℚ), d.endsWithPct = false → d.endsWithPx = false →
      getInitialHeightValue d v = some (3 / 10 * v) ∧ getPixelValue d v = d.parsed) ∧
    getPixelValue dimPct50 800 = some 400 ∧
    getInitialHeightValue dimPct50 800 = some 400 ∧
    getPixelValue dimPx120 777 = some 120 ∧
    getInitialHeightValue dimGarbage 1000 = some 300 ∧
    getPixelValue dimGarbage 1000 = none := by
  refine ⟨?_, ?_, ?_, ?_, ?_, ?_, ?_, ?_⟩
  · intro d v p h1 h2; simp [getPixelValue, getInitialHeightValue, h1, h2]
  · intro d v p h1 h2 h3; simp [getPixelValue, getInitialHeightValue, h1, h2, h3]
  · intro d v h1 h2; simp [getPixelValue, getInitialHeightValue, h1, h2]
  · norm_num [getPixelValue, dimPct50]
  · norm_num [getInitialHeightValue, dimPct50]
  · norm_num [getPixelValue, dimPx120]
  · norm_num [getInitialHeightValue, dimGarbage]
  · simp [getPixelValue, dimGarbage]

/-- Witness for C5: the percent clause instantiated on "50%" over an 800px
viewport. -/
theorem C5_pixel_conversion_witness :
    getPixelValue dimPct50 800 = some (50 / 100 * 800) ∧
    getInitialHeightValue dimPct50 800 = some (50 / 100 * 800) :=
  C5_pixel_conversion.1 dimPct50 800 50 rfl rfl

/-- C6: an outside-click with `closeOnClickOutside` enabled, and an Escape
press while visible with `closeOnEscape` enabled, each fire `onClose`
exactly once and never mutate the internal state; no handler changes the
internal `visible` flag, which is set only by mirroring the external
`isVisible` prop; in particular an outside-click on a state with internal
visibility `false` still fires `onClose` exactly once and leaves the state
unchanged. -/
theorem C6_close_requests_only :
    (∀ (cfg : Config) (s : SheetState), cfg.closeOnClickOutside = true →
      handleBackdropClick cfg s = (s, [Event.closeRequest]) ∧
      (handleBackdropClick cfg s).2.count Event.closeRequest = 1) ∧
    (∀ (cfg : Config) (s : SheetState), cfg.closeOnEscape = true → s.visible = true →
      handleEscapeKey cfg s Key.escape = (s, [Event.closeRequest]) ∧
      (handleEscapeKey cfg s Key.escape).2.count Event.closeRequest = 1) ∧
    (∀ (cfg : Config) (s : SheetState) (k : Key),
      (handleBackdropClick cfg s).1 = s ∧ (handleEscapeKey cfg s k).1 = s) ∧
    (∀ (s : SheetState) (b : Bool), (syncVisible s b).visible = b) ∧
    (∀ (cfg : Config) (s : SheetState) (c : ℚ) (k : Key) (d : DimStr) (v : ℚ) (b : Bool),
      (handleTouchStart cfg s c).1.visible = s.visible ∧
      (handleTouchMove cfg s c).1.visible = s.visible ∧
      (handleTouchEnd cfg s).1.visible = s.visible ∧
      (handleMouseDown cfg s c).1.visible = s.visible ∧
      (handleMouseMove cfg s c).1.visible = s.visible ∧
      (handleMouseUp cfg s).1.visible = s.visible ∧
      (handleKeyDown cfg s k).1.visible = s.visible ∧
      (handleResize d v s).visible = s.visible ∧
      (syncVisible s b).visible = b) ∧
    (stHidden.visible = false ∧
      handleBackdropClick cfgRun stHidden = (stHidden, [Event.closeRequest])) := by
  refine ⟨?_, ?_, ?_, ?_, ?_, ?_⟩
  · intro cfg s h1
    constructor <;> simp [handleBackdropClick, h1]
  · intro cfg s h1 h2
    constructor <;> simp [handleEscapeKey, h1, h2]
  · intro cfg s k
    constructor
    · unfold handleBackdropClick
      split <;> rfl
    · unfold handleEscapeKey
      split <;> rfl
  · intro s b; rfl
  · intro cfg s c k d v b
    have hts : (handleTouchStart cfg s c).1.visible = s.visible := by
      unfold handleTouchStart; split <;> rfl
    have htm : (handleTouchMove cfg s c).1.visible = s.visible := by
      unfold handleTouchMove; split <;> rfl
    have hte : (handleTouchEnd cfg s).1.visible = s.visible := by
      unfold handleTouchEnd
      split
      · rfl
      · split <;> rfl
    have hkd : (handleKeyDown cfg s k).1.visible = s.visible := by
      unfold handleKeyDown
      split
      · cases s.sheetHeight with
        | some hh => by_cases hlt : hh < cfg.maxHeightPx <;> simp [hlt]
        | none => rfl
      · rfl
    exact ⟨hts, htm, hte, hts, htm, hte, hkd, rfl, rfl⟩
  · exact ⟨rfl, by simp [handleBackdropClick, cfgRun]⟩

/-- Witness for C6: Escape on a visible state with `closeOnEscape` enabled
fires exactly one close request. -/
theorem C6_close_requests_witness :
    handleEscapeKey cfgRun stRun Key.escape = (stRun, [Event.closeRequest]) ∧
    (handleEscapeKey cfgRun stRun Key.escape).2.count Event.closeRequest = 1 :=
  C6_close_requests_only.2.1 cfgRun stRun rfl rfl

/-- Counterexample for C7: snap resolution on an empty snap set is reached
and silently tolerated, not guarded or failed loudly: with snapping enabled
and `snapPoints = []`, the resolver returns `undefined` (`none`) with no
`onSnap`, and `end()` on a mid-drag state completes normally, adopting the
undefined height and firing `onHeightChange undefined` and `onDragEnd`. -/
theorem C7_empty_snap_counterexample :
    findNearestSnapPoint cfgEmptySnap (some 300) = (none, []) ∧
    handleTouchEnd cfgEmptySnap stDragging =
      ({ stDragging with isDragging := false, sheetHeight := none },
       [Event.heightChange none, Event.dragEnd]) := by
  have hp : snapPixels cfgEmptySnap = [] := by simp [snapPixels, cfgEmptySnap]
  have h1 := findNearestSnapPoint_nil cfgEmptySnap (some 300) rfl hp
  refine ⟨h1, ?_⟩
  have h2 := findNearestSnapPoint_nil cfgEmptySnap stDragging.sheetHeight rfl hp
  simp only [handleTouchEnd, show cfgEmptySnap.isDraggable = true from rfl,
    show cfgEmptySnap.enableSnapping = true from rfl]
  simp [h2]

/-- C7 (amended): the code does not guard empty snap sets. Whenever dragging
and snapping are enabled and the snap list is empty, `end()` still invokes
the resolver, which silently returns `undefined` (`none`) and fires no
`onSnap`; the sheet height becomes undefined, `onHeightChange` fires with
`undefined` and `onDragEnd` fires, with no assertion or error anywhere. -/
theorem C7_empty_snap_silent : ∀ (cfg : Config) (s : SheetState),
    cfg.isDraggable = true → cfg.enableSnapping = true → cfg.snapPoints = [] →
    findNearestSnapPoint cfg s.sheetHeight = (none, []) ∧
    handleTouchEnd cfg s =
      ({ s with isDragging := false, sheetHeight := none },
       [Event.heightChange none, Event.dragEnd]) ∧
    handleMouseUp cfg s = handleTouchEnd cfg s := by
  intro cfg s hd hs hsp
  have hp : snapPixels cfg = [] := by simp [snapPixels, hsp]
  have h2 := findNearestSnapPoint_nil cfg s.sheetHeight hs hp
  refine ⟨h2, ?_, rfl⟩
  simp only [handleTouchEnd, hd, hs]
  simp [h2]

/-- Witness for C7: the amended behavior on the concrete empty-snap
configuration and mid-drag state. -/
theorem C7_empty_snap_witness :
    findNearestSnapPoint cfgEmptySnap stDragging.sheetHeight = (none, []) ∧
    handleTouchEnd cfgEmptySnap stDragging =
      ({ stDragging with isDragging := false, sheetHeight := none },
       [Event.heightChange none, Event.dragEnd]) := by
  have h := C7_empty_snap_silent cfgEmptySnap stDragging rfl rfl rfl
  exact ⟨h.1, h.2.1⟩

/-- C8: a viewport resize resets the height to the initial configured
dimension evaluated at the new viewport height, independently of any dragged
height (for the "30%" initial dimension at new viewport 500 the result is
150, not the proportional rescale 275 of a dragged 550); and no non-drag
event (start, outside-click, escape, visibility sync, or a move outside an
active session) changes a height the user dragged to. -/
theorem C8_resize_resets_to_initial :
    (∀ (d : DimStr) (v : ℚ) (s : SheetState),
      (handleResize d v s).sheetHeight = getInitialHeightValue d v) ∧
    (∀ (d : DimStr) (v : ℚ) (s t : SheetState),
      (handleResize d v s).sheetHeight = (handleResize d v t).sheetHeight) ∧
    (handleResize dimPct30 500 stDragged).sheetHeight = some 150 ∧
    (handleResize dimPct30 500 stDragged).sheetHeight ≠ some 275 ∧
    (∀ (cfg : Config) (s : SheetState) (c : ℚ) (k : Key) (b : Bool),
      (handleTouchStart cfg s c).1.sheetHeight = s.sheetHeight ∧
      (handleMouseDown cfg s c).1.sheetHeight = s.sheetHeight ∧
      (handleBackdropClick cfg s).1.sheetHeight = s.sheetHeight ∧
      (handleEscapeKey cfg s k).1.sheetHeight = s.sheetHeight ∧
      (syncVisible s b).sheetHeight = s.sheetHeight ∧
      (s.isDragging = false →
        (handleTouchMove cfg s c).1.sheetHeight = s.sheetHeight ∧
        (handleMouseMove cfg s c).1.sheetHeight = s.sheetHeight)) := by
  refine ⟨fun d v s => rfl, fun d v s t => rfl, ?_, ?_, ?_⟩
  · norm_num [handleResize, getInitialHeightValue, dimPct30, stDragged]
  · norm_num [handleResize, getInitialHeightValue, dimPct30, stDragged]
  · intro cfg s c k b
    have hts : (handleTouchStart cfg s c).1.sheetHeight = s.sheetHeight := by
      unfold handleTouchStart; split <;> rfl
    have hbc : (handleBackdropClick cfg s).1.sheetHeight = s.sheetHeight := by
      unfold handleBackdropClick; split <;> rfl
    have hek : (handleEscapeKey cfg s k).1.sheetHeight = s.sheetHeight := by
      unfold handleEscapeKey; split <;> rfl
    have htm : s.isDragging = false →
        (handleTouchMove cfg s c).1.sheetHeight = s.sheetHeight := by
      intro hnd
      unfold handleTouchMove
      rw [if_pos (Or.inr hnd)]
    exact ⟨hts, hts, hbc, hek, rfl, fun hnd => ⟨htm hnd, htm hnd⟩⟩

/-- Witness for C8: resize is independent of the pre-resize state, and an
idle-state move leaves the dragged height alone. -/
theorem C8_resize_witness :
    (handleResize dimPct30 500 stDragged).sheetHeight =
      (handleResize dimPct30 500 stRun).sheetHeight ∧
    (handleTouchMove cfgRun stRun 100).1.sheetHeight = stRun.sheetHeight :=
  ⟨C8_resize_resets_to_initial.2.1 dimPct30 500 stDragged stRun,
   ((C8_resize_resets_to_initial.2.2.2.2 cfgRun stRun 100 Key.enter true).2.2.2.2.2 rfl).1⟩

/-- C9: pressing Enter or Space on the drag handle toggles the sheet
height: strictly below `maxHeightPx` it jumps to `maxHeightPx`, otherwise
to `minHeightPx`, firing `onHeightChange` with the new value in both
cases. -/
theorem C9_keyboard_toggle : ∀ (cfg : Config) (s : SheetState) (k : Key) (h : ℚ),
    k = Key.enter ∨ k = Key.space → s.sheetHeight = some h →
    (h < cfg.maxHeightPx →
      handleKeyDown cfg s k =
        ({ s with sheetHeight := some cfg.maxHeightPx },
         [Event.heightChange (some cfg.maxHeightPx)])) ∧
    (¬h < cfg.maxHeightPx →
      handleKeyDown cfg s k =
        ({ s with sheetHeight := some cfg.minHeightPx },
         [Event.heightChange (some cfg.minHeightPx)])) := by
  intro cfg s k h hk hsh
  constructor <;> intro hlt <;> simp [handleKeyDown, hk, hsh, hlt]

/-- Witness for C9: Enter at height 300 below the 900px bound jumps to the
maximum height. -/
theorem C9_keyboard_toggle_witness :
    handleKeyDown cfgRun stRun Key.enter =
      ({ stRun with sheetHeight := some cfgRun.maxHeightPx },
       [Event.heightChange (some cfgRun.maxHeightPx)]) :=
  (C9_keyboard_toggle cfgRun stRun Key.enter 300 (Or.inl rfl) rfl).1
    (by norm_num [cfgRun])

/-- C10: with snapping disabled the resolver is the identity on every
height, including the undefined one, and fires no `onSnap`. -/
theorem C10_disabled_snapping_identity : ∀ (cfg : Config) (hgt : Option ℚ),
    cfg.enableSnapping = false → findNearestSnapPoint cfg hgt = (hgt, []) := by
  intro cfg hgt hs
  unfold findNearestSnapPoint
  rw [hs]
  simp

/-- Witness for C10: identity at height 123 under the snapping-disabled
configuration. -/
theorem C10_disabled_snapping_witness :
    findNearestSnapPoint cfgNoSnap (some 123) = (some 123, []) :=
  C10_disabled_snapping_identity cfgNoSnap (some 123) rfl

end BottomSheet
